import Mathlib

/-!
# Verification of the plumise-agent-app core

Shallow embedding of the agent's core algorithms and state machine, translated
from the Rust sources:

* `crates/core/src/process.rs` — parallel-slot adjustment and launch arguments;
* `crates/core/src/relay/client.rs` — reconnect backoff and the streaming
  request handler;
* `crates/core/src/system.rs` — log-line masking of hex secrets;
* `src-tauri/src/commands/agent.rs` — the agent state machine
  (start/stop commands, sidecar exit handling, Oracle mode reconciliation).

Machine integers (`u32`, `u64`, `u16`) are modelled as `Nat`; every arithmetic
operation performed by the code on these values (division, `max`, doubling
capped at 60) stays far below `2^32`/`2^64` on the relevant paths, so no
wrap-around modelling is needed.  Rust byte strings are modelled as `List Nat`
(byte values), Rust `String`s of code points as `List Nat` (scalar values),
and UTF-8 encoding is made explicit where the code mixes bytes and chars.
-/

namespace PlumiseAgent

/-! ## Process supervisor: parallel-slot adjustment (process.rs)

`adjust_parallel_slots` in `crates/core/src/process.rs` (the identical
computation is inlined in `start_agent`, `src-tauri/src/commands/agent.rs`
lines 170-188). -/

/-- `adjust_parallel_slots(ctx_size, parallel_slots)` from `process.rs`:
auto-adjust parallel slots so each slot gets at least 4096 tokens. -/
def adjust_parallel_slots (ctx_size parallel_slots : Nat) : Nat :=
  if parallel_slots ≤ 1 then parallel_slots
  else
    let per_slot := ctx_size / parallel_slots
    if per_slot < 4096 then Nat.max (ctx_size / 4096) 1
    else parallel_slots

/-- The slot adjustment inlined in `start_agent` (`agent.rs` lines 170-188):
`effective_slots` starts at `config.parallel_slots` and is recomputed as
`(config.ctx_size / 4096).max(1)` when `> 1` slots would get `< 4096` tokens. -/
def start_agent_effective_slots (ctx_size parallel_slots : Nat) : Nat :=
  if parallel_slots > 1 ∧ ctx_size / parallel_slots < 4096 then
    Nat.max (ctx_size / 4096) 1
  else parallel_slots

/-- The llama-server argv built in `start_agent` (`agent.rs` lines 190-205). -/
def start_agent_args (model_path : String)
    (http_port gpu_layers ctx_size parallel_slots : Nat) : List String :=
  [ "-m", model_path,
    "--host", "0.0.0.0",
    "--port", toString http_port,
    "-ngl", toString gpu_layers,
    "--ctx-size", toString ctx_size,
    "-np", toString (start_agent_effective_slots ctx_size parallel_slots),
    "--jinja" ]

theorem start_agent_effective_slots_eq_adjust (ctx_size parallel_slots : Nat) :
    start_agent_effective_slots ctx_size parallel_slots
      = adjust_parallel_slots ctx_size parallel_slots := by
  unfold start_agent_effective_slots adjust_parallel_slots
  by_cases h1 : parallel_slots ≤ 1
  · have : ¬ (parallel_slots > 1 ∧ ctx_size / parallel_slots < 4096) := by
      intro h; exact absurd h.1 (not_lt.mpr h1)
    simp [h1, this]
  · have h1' : parallel_slots > 1 := lt_of_not_ge h1
    by_cases h2 : ctx_size / parallel_slots < 4096
    · simp [h1, h1', h2]
    · simp [h1, h1', h2]

theorem adjust_parallel_slots_pos (ctx_size parallel_slots : Nat)
    (h : 1 ≤ parallel_slots) : 1 ≤ adjust_parallel_slots ctx_size parallel_slots := by
  unfold adjust_parallel_slots
  by_cases h1 : parallel_slots ≤ 1
  · simpa [h1] using h
  · by_cases h2 : ctx_size / parallel_slots < 4096
    · simp only [h1, if_false, h2, if_true]
      exact Nat.le_max_right _ 1
    · simpa [h1, h2] using h

theorem adjust_parallel_slots_le (ctx_size parallel_slots : Nat) :
    adjust_parallel_slots ctx_size parallel_slots ≤ parallel_slots := by
  unfold adjust_parallel_slots
  by_cases h1 : parallel_slots ≤ 1
  · simp [h1]
  · have hpos : 0 < parallel_slots := by omega
    by_cases h2 : ctx_size / parallel_slots < 4096
    · simp only [h1, if_false, h2, if_true]
      have hlt : ctx_size / 4096 < parallel_slots := by
        have : ctx_size < 4096 * parallel_slots := (Nat.div_lt_iff_lt_mul hpos).mp h2
        exact (Nat.div_lt_iff_lt_mul (by norm_num)).mpr
          (by calc ctx_size < 4096 * parallel_slots := this
                _ = parallel_slots * 4096 := Nat.mul_comm _ _)
      exact Nat.max_le.mpr ⟨Nat.le_of_lt hlt, by omega⟩
    · simp [h1, h2]

theorem adjust_parallel_slots_per_slot (ctx_size parallel_slots : Nat)
    (hs : 1 ≤ parallel_slots) (hc : 4096 ≤ ctx_size) :
    4096 ≤ ctx_size / adjust_parallel_slots ctx_size parallel_slots := by
  unfold adjust_parallel_slots
  by_cases h1 : parallel_slots ≤ 1
  · have : parallel_slots = 1 := le_antisymm h1 hs
    simpa [h1, this] using hc
  · by_cases h2 : ctx_size / parallel_slots < 4096
    · simp only [h1, if_false, h2, if_true]
      have ha : Nat.max (ctx_size / 4096) 1 = ctx_size / 4096 := by
        have : 1 ≤ ctx_size / 4096 := Nat.one_le_div_iff (by norm_num) |>.mpr hc
        exact Nat.max_eq_left this
      rw [ha]
      have hdpos : 0 < ctx_size / 4096 := Nat.one_le_div_iff (by norm_num) |>.mpr hc
      exact (Nat.le_div_iff_mul_le hdpos).mpr
        (by calc 4096 * (ctx_size / 4096) = ctx_size / 4096 * 4096 := Nat.mul_comm _ _
              _ ≤ ctx_size := Nat.div_mul_le_self _ _)
    · simp only [h1, if_false, h2, if_true]
      exact le_of_not_lt h2

theorem adjust_parallel_slots_idem (ctx_size parallel_slots : Nat) :
    adjust_parallel_slots ctx_size (adjust_parallel_slots ctx_size parallel_slots)
      = adjust_parallel_slots ctx_size parallel_slots := by
  unfold adjust_parallel_slots
  by_cases h1 : parallel_slots ≤ 1
  · simp [h1]
  · by_cases h2 : ctx_size / parallel_slots < 4096
    · simp only [h1, if_false, h2, if_true]
      by_cases h3 : Nat.max (ctx_size / 4096) 1 ≤ 1
      · simp [h3]
      · have hd : 1 < ctx_size / 4096 := by
          by_contra hle
          exact h3 (le_of_eq (Nat.max_eq_right (not_lt.mp hle)))
        have hm : Nat.max (ctx_size / 4096) 1 = ctx_size / 4096 :=
          Nat.max_eq_left (Nat.le_of_lt hd)
        rw [hm] at h3 ⊢
        have hc : 4096 ≤ ctx_size := by
          by_contra hlt
          have : ctx_size / 4096 = 0 := Nat.div_eq_of_lt (lt_of_not_ge hlt)
          omega
        have hnot : ¬ ctx_size / (ctx_size / 4096) < 4096 := by
          have hdpos : 0 < ctx_size / 4096 := by omega
          exact not_lt.mpr ((Nat.le_div_iff_mul_le hdpos).mpr
            (by calc 4096 * (ctx_size / 4096) = ctx_size / 4096 * 4096 := Nat.mul_comm _ _
                  _ ≤ ctx_size := Nat.div_mul_le_self _ _))
        simp [h3, hnot, hm]
    · simp [h1, h2]

end PlumiseAgent

/-! ## Claim C1 -/

/-- C1 counterexample: the universally-quantified part of C1 is false.  At
`ctx_size = 2048`, `parallel_slots = 2` the adjustment (both the core
`adjust_parallel_slots` and the inlined `start_agent` version) yields 1 slot,
and the effective per-slot context `2048 / 1 = 2048` is below 4096, so a
configuration with less than 4096 tokens of per-slot context is launched. -/
theorem C1_counterexample :
    PlumiseAgent.adjust_parallel_slots 2048 2 = 1 ∧
    PlumiseAgent.start_agent_effective_slots 2048 2 = 1 ∧
    2048 / PlumiseAgent.adjust_parallel_slots 2048 2 < 4096 := by
  refine ⟨by decide, by decide, by decide⟩

/-- C1 (amended): provided `ctx_size ≥ 4096` (and at least one slot is
requested), the launch-argument computation — `adjust_parallel_slots`, equal to
the inlined adjustment in `start_agent` — never yields an effective per-slot
context below 4096; `(8192, 4)` is adjusted to 2, `(32768, 1)` is left at 1 slot (unchanged);
and whenever `parallel_slots > 1` with `ctx_size / parallel_slots < 4096` the
adjusted value is `max(1, ctx_size / 4096)` (the computation is total: it never
fails for any input). -/
theorem C1_adjust_parallel_slots_spec (ctx_size parallel_slots : Nat)
    (hs : 1 ≤ parallel_slots) :
    (4096 ≤ ctx_size →
      4096 ≤ ctx_size / PlumiseAgent.adjust_parallel_slots ctx_size parallel_slots) ∧
    PlumiseAgent.start_agent_effective_slots ctx_size parallel_slots
      = PlumiseAgent.adjust_parallel_slots ctx_size parallel_slots ∧
    PlumiseAgent.adjust_parallel_slots 8192 4 = 2 ∧
    PlumiseAgent.adjust_parallel_slots 32768 1 = 1 ∧
    (1 < parallel_slots → ctx_size / parallel_slots < 4096 →
      PlumiseAgent.adjust_parallel_slots ctx_size parallel_slots
        = Nat.max 1 (ctx_size / 4096)) := by
  refine ⟨fun hc => PlumiseAgent.adjust_parallel_slots_per_slot ctx_size parallel_slots hs hc,
    PlumiseAgent.start_agent_effective_slots_eq_adjust ctx_size parallel_slots,
    by decide, by decide, fun h1 h2 => ?_⟩
  unfold PlumiseAgent.adjust_parallel_slots
  have h1' : ¬ parallel_slots ≤ 1 := not_le.mpr h1
  simp [h1', h2, Nat.max_comm]

/-- C1 witness: instantiates the amended claim at `ctx_size = 8192`,
`parallel_slots = 4`. -/
theorem C1_witness :
    1 ≤ 4 ∧ (4096 ≤ 8192 → 4096 ≤ 8192 / PlumiseAgent.adjust_parallel_slots 8192 4) :=
  ⟨by decide, (C1_adjust_parallel_slots_spec 8192 4 (by decide)).1⟩

/-! ## Claim C10 -/

/-- C10: `adjust_parallel_slots` never modifies the context size (the argv
built by `start_agent` passes `ctx_size` through unchanged after `--ctx-size`),
and for `parallel_slots ≥ 1` the result `r` satisfies `1 ≤ r ≤ parallel_slots`;
moreover the adjustment is idempotent, so re-applying it on a relaunch never
changes an already-adjusted slot count. -/
theorem C10_adjust_parallel_slots_algebra (model_path : String)
    (http_port gpu_layers ctx_size parallel_slots : Nat)
    (hs : 1 ≤ parallel_slots) :
    (PlumiseAgent.start_agent_args model_path http_port gpu_layers ctx_size
        parallel_slots).get? 9 = some (toString ctx_size) ∧
    1 ≤ PlumiseAgent.adjust_parallel_slots ctx_size parallel_slots ∧
    PlumiseAgent.adjust_parallel_slots ctx_size parallel_slots ≤ parallel_slots ∧
    PlumiseAgent.adjust_parallel_slots ctx_size
        (PlumiseAgent.adjust_parallel_slots ctx_size parallel_slots)
      = PlumiseAgent.adjust_parallel_slots ctx_size parallel_slots :=
  ⟨rfl,
   PlumiseAgent.adjust_parallel_slots_pos ctx_size parallel_slots hs,
   PlumiseAgent.adjust_parallel_slots_le ctx_size parallel_slots,
   PlumiseAgent.adjust_parallel_slots_idem ctx_size parallel_slots⟩

/-- C10 witness: instantiates the algebraic properties at `ctx_size = 8192`,
`parallel_slots = 4`. -/
theorem C10_witness :
    (PlumiseAgent.start_agent_args "m.gguf" 18920 99 8192 4).get? 9
        = some (toString 8192) ∧
    1 ≤ PlumiseAgent.adjust_parallel_slots 8192 4 ∧
    PlumiseAgent.adjust_parallel_slots 8192 4 ≤ 4 ∧
    PlumiseAgent.adjust_parallel_slots 8192 (PlumiseAgent.adjust_parallel_slots 8192 4)
      = PlumiseAgent.adjust_parallel_slots 8192 4 :=
  C10_adjust_parallel_slots_algebra "m.gguf" 18920 99 8192 4 (by decide)

namespace PlumiseAgent

/-! ## Relay client: reconnect backoff (relay/client.rs, `start_relay`)

The reconnect loop in `start_relay` (lines 43-65) keeps a `backoff` counter
starting at 1.  Each iteration runs `run_relay`; on `Ok` it resets `backoff`
to 1, on `Err` it leaves it unchanged; it then sleeps `backoff` seconds and
sets `backoff := min(backoff * 2, 60)`.  We model the loop by the sequence of
sleep delays it produces for a given finite prefix of connection outcomes
(`true` = the connection attempt succeeded and later closed normally,
`false` = `run_relay` returned an error). -/

/-- The sleep delays produced by the `start_relay` reconnect loop, starting
from backoff state `backoff`, for a prefix of connection outcomes.  One delay
is emitted per loop iteration — the loop has no exit path. -/
def start_relay_delays : Nat → List Bool → List Nat
  | _, [] => []
  | backoff, ok :: rest =>
    let b1 := if ok then 1 else backoff
    b1 :: start_relay_delays (Nat.min (b1 * 2) 60) rest

theorem start_relay_delays_replicate_false (n k : Nat) :
    start_relay_delays (Nat.min (2 ^ k) 60) (List.replicate n false)
      = (List.range n).map (fun i => Nat.min (2 ^ (k + i)) 60) := by
  induction n generalizing k with
  | zero => simp [start_relay_delays]
  | succ n ih =>
    have hmin : Nat.min (Nat.min (2 ^ k) 60 * 2) 60 = Nat.min (2 ^ (k + 1)) 60 := by
      rw [pow_succ]
      simp only [Nat.min_def]
      split_ifs <;> omega
    calc start_relay_delays (Nat.min (2 ^ k) 60) (List.replicate (n + 1) false)
        = Nat.min (2 ^ k) 60 ::
            start_relay_delays (Nat.min (2 ^ (k + 1)) 60) (List.replicate n false) := by
          rw [List.replicate_succ]
          simp [start_relay_delays, hmin]
      _ = Nat.min (2 ^ k) 60 ::
            (List.range n).map (fun i => Nat.min (2 ^ (k + 1 + i)) 60) := by rw [ih (k + 1)]
      _ = (List.range (n + 1)).map (fun i => Nat.min (2 ^ (k + i)) 60) := by
          rw [List.range_succ_eq_map, List.map_cons, List.map_map]
          refine congrArg₂ _ (by simp) ?_
          refine List.map_congr_left fun i _ => ?_
          have : k + 1 + i = k + (i + 1) := by omega
          rw [Function.comp_apply, this]

theorem start_relay_delays_length (b : Nat) (outcomes : List Bool) :
    (start_relay_delays b outcomes).length = outcomes.length := by
  induction outcomes generalizing b with
  | nil => rfl
  | cons o rest ih => simp [start_relay_delays, ih]

/-! ## Relay client: streaming request handler (relay/client.rs)

`handle_stream_request` (lines 302-403).  The upstream interaction is
abstracted as a `StreamOutcome`: either the initial `POST` fails outright /
returns a non-success status (`preFail = some message`, covering the two
`send_error` early returns), or it yields an SSE body.  The body is read line
by line with `while let Ok(Some(line)) = lines.next_line()`; `lines` below
are the lines successfully read (already split into the three shapes the loop
distinguishes: a parsed non-`[DONE]` `data:` payload carrying
`choices[0].delta.content`, the `data: [DONE]` marker, and anything skipped —
non-`data:` lines, unparsable JSON, or payloads without a content string).
`readFailed` records whether reading ended with an `Err` instead of clean EOF;
the loop exits the same way in both cases.  WebSocket sends are modelled as
succeeding (a failed send kills the connection and aborts all emission). -/

inductive SseLine where
  | delta (content : String)
  | doneMark
  | junk
deriving DecidableEq

structure StreamOutcome where
  preFail : Option String
  lines : List SseLine
  readFailed : Bool

inductive Frame where
  | chunk (id content : String)
  | done (id : String)
  | error (id message : String)
deriving DecidableEq

/-- The SSE line loop of `handle_stream_request` (lines 367-403): emit a
`chunk` frame per non-empty content delta, stop at `[DONE]`, and send a `done`
frame after the loop exits (by `[DONE]`, EOF, or read error alike). -/
def processSseLines (req_id : String) : List SseLine → List Frame
  | [] => [Frame.done req_id]
  | SseLine.doneMark :: _ => [Frame.done req_id]
  | SseLine.delta c :: rest =>
      if c = "" then processSseLines req_id rest
      else Frame.chunk req_id c :: processSseLines req_id rest
  | SseLine.junk :: rest => processSseLines req_id rest

/-- `handle_stream_request`: frames sent to the relay for one streaming
request, tagged with the request id. -/
def handle_stream_request (req_id : String) (up : StreamOutcome) : List Frame :=
  match up.preFail with
  | some msg => [Frame.error req_id msg]
  | none => processSseLines req_id up.lines

/-- Characterization of the emitted frames: one `chunk` per non-empty delta
before the first `[DONE]` marker, in arrival order, then a single `done`. -/
def sseChunkFrames (req_id : String) (lines : List SseLine) : List Frame :=
  (lines.takeWhile fun l => match l with | SseLine.doneMark => false | _ => true).filterMap
    fun l => match l with
      | SseLine.delta c => if c = "" then none else some (Frame.chunk req_id c)
      | _ => none

theorem processSseLines_eq (req_id : String) (lines : List SseLine) :
    processSseLines req_id lines = sseChunkFrames req_id lines ++ [Frame.done req_id] := by
  induction lines with
  | nil => rfl
  | cons l rest ih =>
    cases l with
    | delta c =>
      by_cases hc : c = ""
      · simp [processSseLines, sseChunkFrames, hc] at ih ⊢
        exact ih
      · simp [processSseLines, sseChunkFrames, hc] at ih ⊢
        exact ih
    | doneMark => rfl
    | junk =>
      simp [processSseLines, sseChunkFrames] at ih ⊢
      exact ih

end PlumiseAgent

/-! ## Claim C3 -/

/-- C3: starting from a fresh connection (backoff state 1), `n` consecutive
failures produce reconnect delays `min(2^i, 60)` for `i = 0, 1, ...` — that is
`1, 2, 4, 8, 16, 32, 60, 60, ...`, exponential and capped at 60; after any
single successful connection the next delay is 1 second regardless of the
accumulated backoff; and the loop emits exactly one reconnect delay per
iteration for every outcome prefix — it has no terminating path. -/
theorem C3_relay_backoff :
    (∀ n, PlumiseAgent.start_relay_delays 1 (List.replicate n false)
        = (List.range n).map fun i => Nat.min (2 ^ i) 60) ∧
    PlumiseAgent.start_relay_delays 1 (List.replicate 8 false)
        = [1, 2, 4, 8, 16, 32, 60, 60] ∧
    (∀ b rest, PlumiseAgent.start_relay_delays b (true :: rest)
        = 1 :: PlumiseAgent.start_relay_delays 2 rest) ∧
    (∀ b outcomes, (PlumiseAgent.start_relay_delays b outcomes).length
        = outcomes.length) := by
  refine ⟨fun n => ?_, by decide, fun b rest => rfl, PlumiseAgent.start_relay_delays_length⟩
  have h := PlumiseAgent.start_relay_delays_replicate_false n 0
  simpa using h

/-! ## Claim C2 -/

/-- C2 counterexample: for request id `"req-1"`, an upstream stream that
delivers deltas `""` and `"Hel"` and then fails mid-stream
(`readFailed = true`) makes `handle_stream_request` emit
`[chunk "Hel", done]`: the terminator is a `done` frame, not the `error`
frame the claim requires for a mid-stream failure, and the empty delta is not
forwarded as a chunk. -/
theorem C2_counterexample :
    PlumiseAgent.handle_stream_request "req-1"
        ⟨none, [PlumiseAgent.SseLine.delta "", PlumiseAgent.SseLine.delta "Hel"], true⟩
      = [PlumiseAgent.Frame.chunk "req-1" "Hel", PlumiseAgent.Frame.done "req-1"] ∧
    (PlumiseAgent.handle_stream_request "req-1"
        ⟨none, [PlumiseAgent.SseLine.delta "", PlumiseAgent.SseLine.delta "Hel"], true⟩).getLast?
      = some (PlumiseAgent.Frame.done "req-1") :=
  ⟨rfl, rfl⟩

/-- C2 (amended): the per-request handler forwards each non-empty incremental
SSE content delta as a separate chunk frame tagged with the original request
id, in arrival order, terminated by a single `done` frame when the upstream
stream ends — whether by `[DONE]`, by clean EOF, or by a mid-stream read
failure.  An `error` frame (and then nothing else) is emitted instead only
when the upstream call fails outright (request error or non-success HTTP
status).  No frame for the request id follows the terminator.  For deltas
`"Hel"`, `"lo"` then `[DONE]` it emits `chunk "Hel"`, `chunk "lo"`, `done` in
that order. -/
theorem C2_stream_relay :
    (∀ id msg lines rf, PlumiseAgent.handle_stream_request id ⟨some msg, lines, rf⟩
        = [PlumiseAgent.Frame.error id msg]) ∧
    (∀ id lines rf, PlumiseAgent.handle_stream_request id ⟨none, lines, rf⟩
        = PlumiseAgent.sseChunkFrames id lines ++ [PlumiseAgent.Frame.done id]) ∧
    PlumiseAgent.handle_stream_request "req-1"
        ⟨none, [PlumiseAgent.SseLine.delta "Hel", PlumiseAgent.SseLine.delta "lo",
                PlumiseAgent.SseLine.doneMark], false⟩
      = [PlumiseAgent.Frame.chunk "req-1" "Hel", PlumiseAgent.Frame.chunk "req-1" "lo",
         PlumiseAgent.Frame.done "req-1"] :=
  ⟨fun _ _ _ _ => rfl,
   fun id lines _ => PlumiseAgent.processSseLines_eq id lines,
   rfl⟩

namespace PlumiseAgent

/-! ## Log classifier: secret masking (system.rs, `mask_sensitive_data`)

`mask_sensitive_data` (lines 282-302) walks the **bytes** of the line.  At
index `i`, if `i + 66 <= len`, `bytes[i] = b'0'`, `bytes[i+1] = b'x'` and the
64 following bytes are ASCII hex digits, it copies `line[i..i+6]`, the marker
`"****...****"` and `line[i+62..i+66]` into the result and jumps 66 bytes;
otherwise it pushes `bytes[i] as char` — the single byte reinterpreted as the
Unicode code point of the same value — and advances one byte.

We model the input line as its list of Unicode scalar values (`List Nat`),
make the byte view explicit through `utf8Encode`, and give the output as the
list of scalar values of the produced `String`.  In the masked regions all
copied bytes are ASCII, so byte values and code points coincide there. -/

/-- Rust `u8::is_ascii_hexdigit`: `0-9`, `A-F`, `a-f`. -/
def isAsciiHexDigit (b : Nat) : Bool :=
  (48 ≤ b && b ≤ 57) || (65 ≤ b && b ≤ 70) || (97 ≤ b && b ≤ 102)

/-- The byte-level token test at the head of a suffix of the line: at least 66
bytes remain, the first two are `0x`, and the next 64 are hex digits. -/
def tokenAt (l : List Nat) : Bool :=
  decide (66 ≤ l.length) && (l.getD 0 0 == 48) && (l.getD 1 0 == 120)
    && ((l.drop 2).take 64).all isAsciiHexDigit

/-- A full 66-byte `0x`-prefixed hex token. -/
def isToken (t : List Nat) : Bool :=
  (t.length == 66) && tokenAt t

/-- Code points of the fixed redaction marker `"****...****"`. -/
def redactionMask : List Nat := [42, 42, 42, 42, 46, 46, 46, 42, 42, 42, 42]

/-- The scanning loop of `mask_sensitive_data` over the byte list.  The second
argument counts bytes still to be skipped after a match (the `i += 66` jump);
the output is the list of code points pushed onto `result`. -/
def maskGo : List Nat → Nat → List Nat
  | [], _ => []
  | _ :: rest, skip + 1 => maskGo rest skip
  | b :: rest, 0 =>
    if tokenAt (b :: rest) then
      (b :: rest).take 6 ++ redactionMask ++ ((b :: rest).drop 62).take 4
        ++ maskGo rest 65
    else b :: maskGo rest 0

/-- UTF-8 encoding of one Unicode scalar value. -/
def utf8EncodeChar (c : Nat) : List Nat :=
  if c < 128 then [c]
  else if c < 2048 then [192 + c / 64, 128 + c % 64]
  else if c < 65536 then [224 + c / 4096, 128 + c / 64 % 64, 128 + c % 64]
  else [240 + c / 262144, 128 + c / 4096 % 64, 128 + c / 64 % 64, 128 + c % 64]

/-- UTF-8 encoding of a string given as its scalar values. -/
def utf8Encode (l : List Nat) : List Nat := (l.map utf8EncodeChar).flatten

/-- `mask_sensitive_data`: scalar values of the output string, for an input
string with scalar values `line`. -/
def mask_sensitive_data (line : List Nat) : List Nat := maskGo (utf8Encode line) 0

theorem utf8Encode_ascii (l : List Nat) (h : ∀ c ∈ l, c < 128) : utf8Encode l = l := by
  induction l with
  | nil => rfl
  | cons c rest ih =>
    have hc : c < 128 := h c (List.mem_cons_self c rest)
    have hr := ih fun x hx => h x (List.mem_cons_of_mem c hx)
    simp [utf8Encode, utf8EncodeChar, hc] at hr ⊢
    exact hr

theorem maskGo_skip (l : List Nat) : ∀ skip, maskGo l skip = maskGo (l.drop skip) 0 := by
  induction l with
  | nil => intro skip; cases skip <;> rfl
  | cons b rest ih =>
    intro skip
    cases skip with
    | zero => rfl
    | succ s => simpa [maskGo] using ih s

theorem maskGo_no_token (p r : List Nat)
    (h : ∀ i, i < p.length → tokenAt ((p ++ r).drop i) = false) :
    maskGo (p ++ r) 0 = p ++ maskGo r 0 := by
  induction p with
  | nil => simp
  | cons b p' ih =>
    have h0 : tokenAt (b :: (p' ++ r)) = false := by simpa using h 0 (by simp)
    have ih' := ih fun i hi => by simpa using h (i + 1) (by simpa using hi)
    simpa [maskGo, h0] using ih'

theorem tokenAt_append (t s : List Nat) (ht : isToken t = true) :
    tokenAt (t ++ s) = true := by
  have hlen : t.length = 66 := by
    have := ht
    unfold isToken at this
    simp only [Bool.and_eq_true, beq_iff_eq] at this
    exact this.1
  have htok : tokenAt t = true := by
    have := ht
    unfold isToken at this
    simp only [Bool.and_eq_true] at this
    exact this.2
  unfold tokenAt at htok ⊢
  simp only [Bool.and_eq_true, decide_eq_true_eq, beq_iff_eq] at htok ⊢
  obtain ⟨⟨⟨_, hg0⟩, hg1⟩, hhex⟩ := htok
  refine ⟨⟨⟨?_, ?_⟩, ?_⟩, ?_⟩
  · simp; omega
  · rw [List.getD_append _ _ _ _ (by omega)]; exact hg0
  · rw [List.getD_append _ _ _ _ (by omega)]; exact hg1
  · have hd : (t ++ s).drop 2 = t.drop 2 ++ s :=
      List.drop_append_of_le_length (by omega)
    have htk : (t.drop 2 ++ s).take 64 = (t.drop 2).take 64 :=
      List.take_append_of_le_length (by simp [hlen])
    rw [hd, htk]
    exact hhex

theorem maskGo_token (t s : List Nat) (ht : isToken t = true) :
    maskGo (t ++ s) 0 = t.take 6 ++ redactionMask ++ t.drop 62 ++ maskGo s 0 := by
  have hlen : t.length = 66 := by
    unfold isToken at ht
    simp only [Bool.and_eq_true, beq_iff_eq] at ht
    exact ht.1
  have htok := tokenAt_append t s ht
  obtain ⟨b, t', rfl⟩ : ∃ b t', t = b :: t' := by
    cases t with
    | nil => simp at hlen
    | cons b t' => exact ⟨b, t', rfl⟩
  have hlen' : t'.length = 65 := by simpa using hlen
  have heq : maskGo ((b :: t') ++ s) 0
      = ((b :: t') ++ s).take 6 ++ redactionMask ++ (((b :: t') ++ s).drop 62).take 4
        ++ maskGo (t' ++ s) 65 := by
    simp only [List.cons_append, maskGo]
    rw [if_pos (by simpa using htok)]
    simp
  have h1 : ((b :: t') ++ s).take 6 = (b :: t').take 6 :=
    List.take_append_of_le_length (by simp [hlen'])
  have h2 : ((b :: t') ++ s).drop 62 = (b :: t').drop 62 ++ s :=
    List.drop_append_of_le_length (by simp [hlen'])
  have hdlen : ((b :: t').drop 62).length = 4 := by simp [hlen']
  have h3 : ((b :: t').drop 62 ++ s).take 4 = (b :: t').drop 62 := by
    rw [List.take_append_of_le_length (le_of_eq hdlen.symm),
      List.take_of_length_le (le_of_eq hdlen)]
  have h5 : (t' ++ s).drop 65 = s := by
    rw [List.drop_append_of_le_length (le_of_eq hlen'.symm),
      List.drop_eq_nil_of_le (le_of_eq hlen'), List.nil_append]
  rw [heq, h1, h2, h3, maskGo_skip (t' ++ s) 65, h5]

end PlumiseAgent

/-! ## Claim C9 -/

/-- C9 counterexample: the pass-through half of the claim is false for
non-ASCII lines.  The one-character line `"é"` (scalar value 233, UTF-8 bytes
`[195, 169]`) contains no 66-character `0x` hex token at any byte offset, yet
`mask_sensitive_data` rebuilds it byte-by-byte with `bytes[i] as char` and
returns the two-character string with scalar values `[195, 169]` (`"Ã©"`),
not the line unchanged. -/
theorem C9_counterexample :
    PlumiseAgent.mask_sensitive_data [233] = [195, 169] ∧
    PlumiseAgent.mask_sensitive_data [233] ≠ [233] ∧
    (∀ i, PlumiseAgent.tokenAt ((PlumiseAgent.utf8Encode [233]).drop i) = false) := by
  refine ⟨rfl, by decide, fun i => ?_⟩
  match i with
  | 0 => rfl
  | 1 => rfl
  | n + 2 =>
    have h : (PlumiseAgent.utf8Encode [233]).drop (n + 2) = [] :=
      List.drop_eq_nil_of_le (by simp [PlumiseAgent.utf8Encode,
        PlumiseAgent.utf8EncodeChar])
    rw [h]; rfl

/-- C9 (amended): restricted to ASCII lines (every scalar value < 128, so
bytes and characters coincide), `mask_sensitive_data` behaves exactly as
claimed: a line with no 66-character `0x`-prefixed hex token at any offset is
returned unchanged, and a line `p ++ t ++ s` whose first such token is `t`
(no token starts inside `p`) is rewritten to `p` followed by the token's
first 6 characters, the fixed marker `"****...****"`, its last 4 characters,
and the masking of the remainder `s`.  Non-ASCII lines are instead transcoded
byte-by-byte (each UTF-8 byte becomes one output character). -/
theorem C9_mask_sensitive_data (line : List Nat) (hascii : ∀ c ∈ line, c < 128) :
    ((∀ i, PlumiseAgent.tokenAt (line.drop i) = false) →
      PlumiseAgent.mask_sensitive_data line = line) ∧
    (∀ p t s, line = p ++ t ++ s → PlumiseAgent.isToken t = true →
      (∀ i, i < p.length → PlumiseAgent.tokenAt (line.drop i) = false) →
      PlumiseAgent.mask_sensitive_data line
        = p ++ (t.take 6 ++ PlumiseAgent.redactionMask ++ t.drop 62)
            ++ PlumiseAgent.maskGo s 0) := by
  have henc : PlumiseAgent.utf8Encode line = line := PlumiseAgent.utf8Encode_ascii line hascii
  constructor
  · intro hno
    have h := PlumiseAgent.maskGo_no_token line [] ?_
    · unfold PlumiseAgent.mask_sensitive_data
      rw [henc]
      simpa [PlumiseAgent.maskGo] using h
    · intro i hi
      simpa using hno i
  · intro p t s hsplit htok hpre
    unfold PlumiseAgent.mask_sensitive_data
    rw [henc, hsplit, List.append_assoc]
    have hp : PlumiseAgent.maskGo (p ++ (t ++ s)) 0
        = p ++ PlumiseAgent.maskGo (t ++ s) 0 := by
      refine PlumiseAgent.maskGo_no_token p (t ++ s) fun i hi => ?_
      have := hpre i hi
      rw [hsplit, List.append_assoc] at this
      exact this
    rw [hp, PlumiseAgent.maskGo_token t s htok]
    simp

/-- C9 witness: the ASCII line `"key: 0x000...0"` (`"key: "` followed by a
66-character all-zero hex token) is rewritten to
`"key: 0x0000****...****0000"`. -/
theorem C9_witness :
    (∀ c ∈ ([107, 101, 121, 58, 32] ++ (48 :: 120 :: List.replicate 64 48)
        ++ ([] : List Nat)), c < 128) ∧
    PlumiseAgent.mask_sensitive_data
        ([107, 101, 121, 58, 32] ++ (48 :: 120 :: List.replicate 64 48) ++ [])
      = [107, 101, 121, 58, 32]
        ++ ((48 :: 120 :: List.replicate 64 48).take 6 ++ PlumiseAgent.redactionMask
            ++ (48 :: 120 :: List.replicate 64 48).drop 62)
        ++ PlumiseAgent.maskGo [] 0 := by
  refine ⟨by decide, ?_⟩
  exact (C9_mask_sensitive_data
      ([107, 101, 121, 58, 32] ++ (48 :: 120 :: List.replicate 64 48) ++ [])
      (by decide)).2
    [107, 101, 121, 58, 32] (48 :: 120 :: List.replicate 64 48) [] rfl
    (by decide) (by decide)

namespace PlumiseAgent

/-! ## Agent state machine (src-tauri/src/commands/agent.rs)

`AgentState` mirrors the mutex-guarded struct of the same name (fields not
touched by any claim — `start_time`, `model_path`, `agent_address` — are
omitted; the `background_tasks` vector is abstracted to its length).  Each
Tauri command / event handler is modelled by its net effect on the record,
with process side effects reified as a list of `ProcOp`s.  Commands are
modelled as atomic transitions: the spec's concurrency model serializes all
`AgentRecord` transitions through its lock, and the transient `Starting`
(inside a failed `start_agent`) and `Stopping` (inside `stop_agent`) values
are internal to a single command execution. -/

inductive AgentStatus where
  | stopped
  | starting
  | running
  | stopping
  | error
deriving DecidableEq, Repr

inductive NodeMode where
  | standalone
  | rpcServer
  | coordinator
deriving DecidableEq, Repr

structure AgentState where
  pid : Option Nat
  status : AgentStatus
  httpPort : Nat
  nodeMode : NodeMode
  clusterId : Option String
  rpcServerPid : Option Nat
  backgroundTasks : Nat
deriving DecidableEq, Repr

/-- `AgentState::default()` (`agent.rs` lines 77-92). -/
def initialAgentState : AgentState :=
  { pid := none, status := AgentStatus.stopped, httpPort := 18920,
    nodeMode := NodeMode.standalone, clusterId := none, rpcServerPid := none,
    backgroundTasks := 0 }

/-- Reified process-level side effects of the commands. -/
inductive ProcOp where
  | killPid (pid : Nat)
  | stopRpcServer (pid : Nat)
  | abortTask
  | spawnRpcServer (port : Nat)
  | spawnCoordinator (peers : List String)
deriving DecidableEq

/-- The first guard block of `start_agent` (`agent.rs` lines 102-109): reject
when already `Running` or `Starting`, otherwise move to `Starting` and record
the HTTP port. -/
def start_agent_guard (s : AgentState) (http_port : Nat) : Except String AgentState :=
  if s.status = AgentStatus.running ∨ s.status = AgentStatus.starting then
    Except.error "Agent is already running or starting"
  else Except.ok { s with status := AgentStatus.starting, httpPort := http_port }

/-- Private-key validation in `start_agent` (`agent.rs` lines 111-128), run
after the guard set status to `Starting`.  `parse_err` abstracts the outcome
of `chain::crypto::parse_private_key` (hex decode + `SigningKey::from_bytes`):
`none` means the key parsed.  Every failing path sets `status` back to
`AgentStatus.stopped` and returns the error message. -/
def start_agent_validate_key (s : AgentState) (private_key : String)
    (parse_err : Option String) : AgentState × Option String :=
  if private_key = "" then
    ({ s with status := AgentStatus.stopped },
     some "Private key is required. Go to Settings to configure it.")
  else if ¬ (private_key.startsWith "0x" = true ∧ private_key.length = 66) then
    ({ s with status := AgentStatus.stopped },
     some "Invalid private key format. Must be 0x-prefixed hex (66 chars).")
  else
    match parse_err with
    | some e => ({ s with status := AgentStatus.stopped }, some e)
    | none => (s, none)

/-- `stop_agent` (`agent.rs` lines 460-498): error when already `Stopped`;
otherwise abort all background tasks, kill the engine pid and the rpc-server
pid when present, and end `Stopped` with node mode and cluster id cleared
(the intermediate `Stopping` value is internal to the command). -/
def stop_agent (s : AgentState) : Except String (AgentState × List ProcOp) :=
  if s.status = AgentStatus.stopped then Except.error "Agent is not running"
  else
    Except.ok
      ({ s with status := AgentStatus.stopped, pid := none, rpcServerPid := none,
                nodeMode := NodeMode.standalone, clusterId := none,
                backgroundTasks := 0 },
       List.replicate s.backgroundTasks ProcOp.abortTask
         ++ (match s.pid with | some p => [ProcOp.killPid p] | none => [])
         ++ (match s.rpcServerPid with | some p => [ProcOp.stopRpcServer p] | none => []))

/-- The `CommandEvent::Terminated` arm of `handle_sidecar_events`
(`agent.rs` lines 423-448), identical to the fallback exit watcher
(lines 369-396): when the agent is neither `Stopped` nor `Stopping`, the exit
is an unexpected crash — status becomes `AgentStatus.error`, the pid is cleared and
node mode / cluster id reset; otherwise the handler leaves the state
untouched. -/
def handle_sidecar_terminated (s : AgentState) : AgentState :=
  if s.status ≠ AgentStatus.stopped ∧ s.status ≠ AgentStatus.stopping then
    { s with status := AgentStatus.error, pid := none,
             nodeMode := NodeMode.standalone, clusterId := none }
  else s

/-- `ClusterAssignment` (`crates/core/src/oracle/registry.rs`). -/
structure ClusterAssignment where
  mode : String
  clusterId : Option String
  rpcPort : Nat
  rpcPeers : Option (List String)
deriving DecidableEq

/-- The effective mode computed in `on_agent_ready` (`agent.rs` lines
725-736): the assignment's mode string (default `"standalone"` when no
assignment), overridden to `"standalone"` when the user forced standalone
via `config.distributed_mode`. -/
def effective_mode (distributed_mode : String)
    (assignment : Option ClusterAssignment) : String :=
  let mode_str := match assignment with
    | some a => a.mode
    | none => "standalone"
  if distributed_mode = "standalone" then "standalone" else mode_str

/-- Outcome of a sidecar spawn attempted during mode reconciliation. -/
inductive SpawnOutcome where
  | ok (pid : Nat)
  | fail (msg : String)
deriving DecidableEq

/-- Mode reconciliation in `on_agent_ready` (`agent.rs` lines 738-813)
together with `restart_as_coordinator` (lines 875-1009), as its net effect on
the state plus the attempted process operations.  `spawn` is the outcome of
the rpc-server or coordinator sidecar spawn; `coordReady` tells whether the
coordinator health poll saw `"ok"` within its 60 attempts (on timeout the
status is left at `Starting`; `node_mode := Coordinator` is set in
`on_agent_ready` regardless of the restart outcome).  The
`"coordinator"`-with-empty-peers branch only logs a warning and changes
nothing. -/
def on_agent_ready_reconcile (s : AgentState) (distributed_mode : String)
    (assignment : Option ClusterAssignment) (cfg_rpc_port : Nat)
    (spawn : SpawnOutcome) (coordReady : Bool) : AgentState × List ProcOp :=
  let em := effective_mode distributed_mode assignment
  if em = "rpc-server" then
    let killOps : List ProcOp := match s.pid with
      | some p => [ProcOp.killPid p]
      | none => []
    let s1 := { s with pid := none }
    let port := (assignment.map (fun a => a.rpcPort)).getD cfg_rpc_port
    match spawn with
    | SpawnOutcome.ok rpid =>
        ({ s1 with rpcServerPid := some rpid, nodeMode := NodeMode.rpcServer,
                   clusterId := assignment.bind (fun a => a.clusterId) },
         killOps ++ [ProcOp.spawnRpcServer port])
    | SpawnOutcome.fail _ => (s1, killOps ++ [ProcOp.spawnRpcServer port])
  else if em = "coordinator" then
    let peers := (assignment.bind (fun a => a.rpcPeers)).getD []
    if peers.isEmpty then (s, [])
    else
      let killOps : List ProcOp := match s.pid with
        | some p => [ProcOp.killPid p]
        | none => []
      let s1 := { s with pid := none, status := AgentStatus.starting }
      let s2 := match spawn with
        | SpawnOutcome.ok p =>
            if coordReady then { s1 with pid := some p, status := AgentStatus.running }
            else { s1 with pid := some p }
        | SpawnOutcome.fail _ => s1
      ({ s2 with nodeMode := NodeMode.coordinator,
                 clusterId := assignment.bind (fun a => a.clusterId) },
       killOps ++ [ProcOp.spawnCoordinator peers])
  else ({ s with nodeMode := NodeMode.standalone }, [])

/-- Control point of the health-poller task.  `start_agent` spawns
`poll_agent_health` with `tokio::spawn` (`agent.rs` line 403) and drops the
`JoinHandle` — it is never pushed into `background_tasks` — so `stop_agent`
cannot cancel it.  The poll loop re-checks the status only at the top of each
tick; once it has called `on_agent_ready` it runs to completion regardless of
what happens to the record.  `registering` covers the awaits between setting
`Running` and learning the assignment (benchmark, Oracle `register` with its
30s timeout); `rpcSpawning` is the await on `start_rpc_server` after the
llama-server kill (`agent.rs` lines 746-761); `coordKilled` is
`restart_as_coordinator` past its first lock block (lines 881-888). -/
inductive PollerPhase where
  | idle
  | polling
  | registering
  | rpcSpawning
  | coordKilled
  | finished
deriving DecidableEq, Repr

/-- The mutex-guarded agent record together with the poller task's control
point. -/
structure SystemState where
  agent : AgentState
  poller : PollerPhase
deriving DecidableEq, Repr

/-- Interleaved transitions of the program, one lock-protected section (or one
uninterrupted command) per constructor.  Every constructor is a transition the
program performs in some execution, and its enabling conditions are at least
as strong as the checks the code makes, so each `Reachable` state is reachable
in the program.  The relation covers the start → ready → register → mode-write
path of `on_agent_ready` interleaved with `stop_agent`:

* `startOk`: an uninterrupted successful `start_agent` from `Stopped` or
  `Error` (guard at lines 102-109, spawn, poller task spawned at line 403);
* `healthReady`: a poll tick observes a non-terminal status, `GET /health`
  answers `"ok"`, status becomes `Running` and `on_agent_ready` is entered
  (lines 587-649);
* `rpcAssigned`: the Oracle returns an rpc-server assignment and the branch
  kills the engine, `pid.take()` (lines 746-752), then awaits the spawn;
* `rpcSpawned`: `start_rpc_server` returns `Ok` and lines 762-766 write
  `rpc_server_pid`, `node_mode = RpcServer` and `cluster_id` after
  re-acquiring the lock **without re-checking the status**;
* `coordAssigned`: a coordinator assignment with peers enters
  `restart_as_coordinator`, whose first lock block kills the engine and sets
  `Starting` unconditionally (lines 881-888);
* `coordModeWrite`: `restart_as_coordinator` returns (here: the spawn failed,
  lines 1001-1008, leaving no other writes) and lines 803-805 write
  `node_mode = Coordinator` and `cluster_id`, again without a status check;
* `stopCmd`: a complete `stop_agent`; it aborts only the handles stored in
  `background_tasks`, which does not include the poller, so the poller phase
  is preserved. -/
inductive Step : SystemState → SystemState → Prop where
  | startOk (s : SystemState) (port pid : Nat)
      (h1 : s.agent.status = AgentStatus.stopped ∨ s.agent.status = AgentStatus.error)
      (h2 : s.poller = PollerPhase.idle) :
      Step s ⟨{ s.agent with
                status := AgentStatus.starting, httpPort := port,
                pid := some pid }, PollerPhase.polling⟩
  | healthReady (s : SystemState)
      (h1 : s.poller = PollerPhase.polling)
      (h2 : s.agent.status = AgentStatus.starting) :
      Step s ⟨{ s.agent with status := AgentStatus.running }, PollerPhase.registering⟩
  | rpcAssigned (s : SystemState)
      (h : s.poller = PollerPhase.registering) :
      Step s ⟨{ s.agent with pid := none }, PollerPhase.rpcSpawning⟩
  | rpcSpawned (s : SystemState) (rpid : Nat) (cid : Option String)
      (h : s.poller = PollerPhase.rpcSpawning) :
      Step s ⟨{ s.agent with
                rpcServerPid := some rpid,
                nodeMode := NodeMode.rpcServer, clusterId := cid },
              PollerPhase.finished⟩
  | coordAssigned (s : SystemState)
      (h : s.poller = PollerPhase.registering) :
      Step s ⟨{ s.agent with pid := none, status := AgentStatus.starting },
              PollerPhase.coordKilled⟩
  | coordModeWrite (s : SystemState) (cid : Option String)
      (h : s.poller = PollerPhase.coordKilled) :
      Step s ⟨{ s.agent with nodeMode := NodeMode.coordinator, clusterId := cid },
              PollerPhase.finished⟩
  | stopCmd (s : SystemState) (rec2 : AgentState) (ops : List ProcOp)
      (h : stop_agent s.agent = Except.ok (rec2, ops)) :
      Step s ⟨rec2, s.poller⟩

/-- States reachable from the freshly created agent record with no poller
running. -/
inductive Reachable : SystemState → Prop where
  | init : Reachable ⟨initialAgentState, PollerPhase.idle⟩
  | step (s s2 : SystemState) : Reachable s → Step s s2 → Reachable s2

/-- The record left stranded when `stop_agent` completes during the
rpc-server registration window and the deferred mode write of
`agent.rs` lines 762-766 then lands on it: `Stopped`, yet `RpcServer` node
mode with a cluster id and a tracked rpc-server pid.  Nothing resets it: the
rpc watchdog (`rpc_server.rs` lines 87-94) does nothing while the status is
`Stopped`, and `start_agent` never writes `node_mode`. -/
def strandedRpcState : AgentState :=
  { pid := none, status := AgentStatus.stopped, httpPort := 18920,
    nodeMode := NodeMode.rpcServer, clusterId := some "c1",
    rpcServerPid := some 7, backgroundTasks := 0 }

end PlumiseAgent

/-! ## Claim C4 -/

/-- C4: an engine exit observed while the agent is neither `Stopping` nor
`Stopped` drives the status to `Error`; an exit observed after a `Stopping`
transition leaves the state untouched (no `Error` detour), and the stop
command itself always ends in `Stopped` whenever it accepts. -/
theorem C4_crash_classification (s : PlumiseAgent.AgentState) :
    (s.status ≠ PlumiseAgent.AgentStatus.stopping →
      s.status ≠ PlumiseAgent.AgentStatus.stopped →
      (PlumiseAgent.handle_sidecar_terminated s).status = PlumiseAgent.AgentStatus.error) ∧
    (s.status = PlumiseAgent.AgentStatus.stopping →
      PlumiseAgent.handle_sidecar_terminated s = s) ∧
    (∀ s' ops, PlumiseAgent.stop_agent s = Except.ok (s', ops) →
      s'.status = PlumiseAgent.AgentStatus.stopped) := by
  refine ⟨fun h1 h2 => ?_, fun h => ?_, fun s' ops h => ?_⟩
  · unfold PlumiseAgent.handle_sidecar_terminated
    rw [if_pos ⟨h2, h1⟩]
  · unfold PlumiseAgent.handle_sidecar_terminated
    rw [if_neg fun hc => hc.2 h]
  · unfold PlumiseAgent.stop_agent at h
    by_cases hc : s.status = PlumiseAgent.AgentStatus.stopped
    · rw [if_pos hc] at h
      exact absurd h (by simp)
    · rw [if_neg hc] at h
      simp only [Except.ok.injEq, Prod.mk.injEq] at h
      rw [← h.1]

/-- C4 witness: a crash while `Running` classifies as `Error`; the same exit
while `Stopping` changes nothing; stopping a `Running` agent ends `Stopped`. -/
theorem C4_witness :
    (PlumiseAgent.handle_sidecar_terminated
        { PlumiseAgent.initialAgentState with
          status := PlumiseAgent.AgentStatus.running }).status
      = PlumiseAgent.AgentStatus.error ∧
    PlumiseAgent.handle_sidecar_terminated
        { PlumiseAgent.initialAgentState with status := PlumiseAgent.AgentStatus.stopping }
      = { PlumiseAgent.initialAgentState with status := PlumiseAgent.AgentStatus.stopping } ∧
    PlumiseAgent.initialAgentState.status = PlumiseAgent.AgentStatus.stopped :=
  ⟨(C4_crash_classification
      { PlumiseAgent.initialAgentState with
        status := PlumiseAgent.AgentStatus.running }).1 (by decide) (by decide),
   (C4_crash_classification
      { PlumiseAgent.initialAgentState with
        status := PlumiseAgent.AgentStatus.stopping }).2.1 rfl,
   (C4_crash_classification
      { PlumiseAgent.initialAgentState with
        status := PlumiseAgent.AgentStatus.running }).2.2
     PlumiseAgent.initialAgentState [] rfl⟩

/-! ## Claim C5 -/

/-- C5 counterexample: with the agent in `Starting`, an empty private key
makes `start_agent` set the status to `Stopped` (returning the error to the
caller) — not to `Error` as the claim states.  The same `status = Stopped`
assignment is taken on the wrong-format and unparsable-key paths
(`agent.rs` lines 113, 117, 125). -/
theorem C5_counterexample :
    (PlumiseAgent.start_agent_validate_key
        { PlumiseAgent.initialAgentState with status := PlumiseAgent.AgentStatus.starting }
        "" none).1.status = PlumiseAgent.AgentStatus.stopped ∧
    (PlumiseAgent.start_agent_validate_key
        { PlumiseAgent.initialAgentState with status := PlumiseAgent.AgentStatus.starting }
        "" none).1.status ≠ PlumiseAgent.AgentStatus.error ∧
    (PlumiseAgent.start_agent_validate_key
        { PlumiseAgent.initialAgentState with status := PlumiseAgent.AgentStatus.starting }
        "" none).2.isSome = true :=
  ⟨rfl, by decide, rfl⟩

/-- C5 (amended): when `start_agent` is invoked and private-key validation
fails — empty key, wrong format (not `0x`-prefixed or not 66 characters), or
unparsable key — the agent transitions from `Starting` back to `Stopped`
(not to `Error`), and the command returns the validation error message. -/
theorem C5_key_validation_failure (s : PlumiseAgent.AgentState) (key : String)
    (perr : Option String) (_hs : s.status = PlumiseAgent.AgentStatus.starting)
    (hfail : key = "" ∨ ¬ (key.startsWith "0x" = true ∧ key.length = 66) ∨
      perr.isSome = true) :
    (PlumiseAgent.start_agent_validate_key s key perr).1.status
      = PlumiseAgent.AgentStatus.stopped ∧
    (PlumiseAgent.start_agent_validate_key s key perr).2.isSome = true := by
  unfold PlumiseAgent.start_agent_validate_key
  by_cases h1 : key = ""
  · simp [h1]
  · by_cases h2 : key.startsWith "0x" = true ∧ key.length = 66
    · have hperr : perr.isSome = true := by
        rcases hfail with hf | hf | hf
        · exact absurd hf h1
        · exact absurd h2 hf
        · exact hf
      cases perr with
      | none => simp at hperr
      | some e => simp [h1, h2]
    · simp [h1, h2]

/-- C5 witness: instantiates the amended claim for the empty key in the
`Starting` state. -/
theorem C5_witness :
    ({ PlumiseAgent.initialAgentState with
        status := PlumiseAgent.AgentStatus.starting } : PlumiseAgent.AgentState).status
      = PlumiseAgent.AgentStatus.starting ∧
    (PlumiseAgent.start_agent_validate_key
        { PlumiseAgent.initialAgentState with status := PlumiseAgent.AgentStatus.starting }
        "" none).1.status = PlumiseAgent.AgentStatus.stopped :=
  ⟨rfl,
   (C5_key_validation_failure
      { PlumiseAgent.initialAgentState with status := PlumiseAgent.AgentStatus.starting }
      "" none rfl (Or.inl rfl)).1⟩

/-! ## Claim C6 -/

/-- C6: an Oracle assignment with mode `"coordinator"` whose peer list is
empty or absent leaves the reconciliation a no-op: the state is returned
unchanged — node mode stays `Standalone`, the status is untouched (the agent
stays up) — and no process operation (in particular no engine relaunch) is
attempted.  The reconciliation function has no error outcome: this branch
only emits a warning log and control falls through to the keepalive loop,
which retries registration. -/
theorem C6_coordinator_empty_peers (s : PlumiseAgent.AgentState) (dm : String)
    (a : PlumiseAgent.ClusterAssignment) (port : Nat)
    (spawn : PlumiseAgent.SpawnOutcome) (ready : Bool)
    (hmode : s.nodeMode = PlumiseAgent.NodeMode.standalone)
    (hcoord : a.mode = "coordinator")
    (hpeers : a.rpcPeers = none ∨ a.rpcPeers = some []) :
    PlumiseAgent.on_agent_ready_reconcile s dm (some a) port spawn ready = (s, []) ∧
    (PlumiseAgent.on_agent_ready_reconcile s dm (some a) port spawn ready).1.nodeMode
      = PlumiseAgent.NodeMode.standalone ∧
    (PlumiseAgent.on_agent_ready_reconcile s dm (some a) port spawn ready).1.status
      = s.status := by
  obtain ⟨pid, st, hport, nm, cid, rpid, bt⟩ := s
  have hnm : nm = PlumiseAgent.NodeMode.standalone := hmode
  subst hnm
  have hp : a.rpcPeers.getD [] = [] := by
    rcases hpeers with h | h <;> simp [h]
  have heq : PlumiseAgent.on_agent_ready_reconcile
      ⟨pid, st, hport, PlumiseAgent.NodeMode.standalone, cid, rpid, bt⟩
      dm (some a) port spawn ready
      = (⟨pid, st, hport, PlumiseAgent.NodeMode.standalone, cid, rpid, bt⟩, []) := by
    by_cases hdm : dm = "standalone"
    · simp [PlumiseAgent.on_agent_ready_reconcile, PlumiseAgent.effective_mode,
        hcoord, hdm]
    · simp [PlumiseAgent.on_agent_ready_reconcile, PlumiseAgent.effective_mode,
        hcoord, hdm, hp]
  exact ⟨heq, by rw [heq], by rw [heq]⟩

/-- C6 witness: a concrete coordinator assignment with an empty peer list is
a no-op on the freshly started (standalone) agent record. -/
theorem C6_witness :
    PlumiseAgent.initialAgentState.nodeMode = PlumiseAgent.NodeMode.standalone ∧
    PlumiseAgent.on_agent_ready_reconcile PlumiseAgent.initialAgentState "auto"
        (some ⟨"coordinator", some "c1", 50052, some []⟩) 50052
        (PlumiseAgent.SpawnOutcome.ok 7) true
      = (PlumiseAgent.initialAgentState, []) :=
  ⟨rfl,
   (C6_coordinator_empty_peers PlumiseAgent.initialAgentState "auto"
      ⟨"coordinator", some "c1", 50052, some []⟩ 50052
      (PlumiseAgent.SpawnOutcome.ok 7) true rfl rfl (Or.inr rfl)).1⟩

/-! ## Claim C7 -/

/-- C7: `stop_agent` on an already-`Stopped` agent returns an error — the
command produces no state change and no process operation (its only success
value carries both) — and `start_agent` while `Running` or `Starting` is
rejected by the guard with an error before any spawn, leaving the record
(including the engine pid) untouched. -/
theorem C7_idempotent_guards (s : PlumiseAgent.AgentState) (port : Nat) :
    (s.status = PlumiseAgent.AgentStatus.stopped →
      PlumiseAgent.stop_agent s = Except.error "Agent is not running") ∧
    ((s.status = PlumiseAgent.AgentStatus.running ∨
        s.status = PlumiseAgent.AgentStatus.starting) →
      PlumiseAgent.start_agent_guard s port
        = Except.error "Agent is already running or starting") := by
  constructor
  · intro h
    unfold PlumiseAgent.stop_agent
    rw [if_pos h]
  · intro h
    unfold PlumiseAgent.start_agent_guard
    rw [if_pos h]

/-- C7 witness: stopping the fresh (stopped) agent errors; starting a running
agent errors. -/
theorem C7_witness :
    PlumiseAgent.stop_agent PlumiseAgent.initialAgentState
      = Except.error "Agent is not running" ∧
    PlumiseAgent.start_agent_guard
        { PlumiseAgent.initialAgentState with status := PlumiseAgent.AgentStatus.running } 1
      = Except.error "Agent is already running or starting" :=
  ⟨(C7_idempotent_guards PlumiseAgent.initialAgentState 1).1 rfl,
   (C7_idempotent_guards
      { PlumiseAgent.initialAgentState with status := PlumiseAgent.AgentStatus.running }
      1).2 (Or.inl rfl)⟩

/-! ## Claim C8 -/

/-- C8 counterexample: the invariant fails on a reachable state.  Start the
agent, let the health poller set `Running` and enter `on_agent_ready`, let the
Oracle assign rpc-server mode (the branch kills the engine and awaits
`start_rpc_server`), let `stop_agent` complete in that window — it sees
`Running` and resets the record to `Stopped`/`Standalone` — and then let the
pending spawn return: `agent.rs` lines 762-766 write `node_mode = RpcServer`,
`cluster_id` and the rpc pid onto the already-`Stopped` record without
re-checking the status.  The resulting stable state has `status = Stopped`
with `node_mode = RpcServer ≠ Standalone` and `cluster_id ≠ None`. -/
theorem C8_counterexample :
    PlumiseAgent.Reachable
      ⟨PlumiseAgent.strandedRpcState, PlumiseAgent.PollerPhase.finished⟩ ∧
    PlumiseAgent.strandedRpcState.status = PlumiseAgent.AgentStatus.stopped ∧
    PlumiseAgent.strandedRpcState.nodeMode = PlumiseAgent.NodeMode.rpcServer ∧
    PlumiseAgent.strandedRpcState.nodeMode ≠ PlumiseAgent.NodeMode.standalone ∧
    PlumiseAgent.strandedRpcState.clusterId ≠ none := by
  refine ⟨?_, rfl, rfl, by decide, by decide⟩
  exact PlumiseAgent.Reachable.step _ _
    (PlumiseAgent.Reachable.step _ _
      (PlumiseAgent.Reachable.step _ _
        (PlumiseAgent.Reachable.step _ _
          (PlumiseAgent.Reachable.step _ _ PlumiseAgent.Reachable.init
            (PlumiseAgent.Step.startOk _ 18920 5 (Or.inl rfl) rfl))
          (PlumiseAgent.Step.healthReady _ rfl rfl))
        (PlumiseAgent.Step.rpcAssigned _ rfl))
      (PlumiseAgent.Step.stopCmd _ PlumiseAgent.initialAgentState [] rfl))
    (PlumiseAgent.Step.rpcSpawned _ 7 (some "c1") rfl)

/-- C8 (amended): every transition into `Error` or `Stopped` performed by the
explicit stop command or by crash detection resets the node-mode sub-state to
`Standalone` and clears the cluster id: whenever `stop_agent` accepts, the
resulting record is `Stopped` with `Standalone` mode and no cluster id, and
whenever the exit watcher classifies an engine exit as a crash (status
neither `Stopped` nor `Stopping`) it writes `Error` with `Standalone` mode
and no cluster id.  The stronger claimed property — `status ∈
{Error, Stopped}` implies `node_mode = Standalone` in every reachable state —
is false: mode reconciliation re-acquires the lock after its awaits without
re-checking the status, so a stop completing during the registration window
is followed by the rpc-server or coordinator mode write landing on the
already-`Stopped` record (`agent.rs` lines 762-766 and 803-805). -/
theorem C8_stop_and_crash_reset (s : PlumiseAgent.AgentState) :
    (∀ s2 ops, PlumiseAgent.stop_agent s = Except.ok (s2, ops) →
      s2.status = PlumiseAgent.AgentStatus.stopped ∧
      s2.nodeMode = PlumiseAgent.NodeMode.standalone ∧ s2.clusterId = none) ∧
    (s.status ≠ PlumiseAgent.AgentStatus.stopped →
      s.status ≠ PlumiseAgent.AgentStatus.stopping →
      (PlumiseAgent.handle_sidecar_terminated s).status
          = PlumiseAgent.AgentStatus.error ∧
      (PlumiseAgent.handle_sidecar_terminated s).nodeMode
          = PlumiseAgent.NodeMode.standalone ∧
      (PlumiseAgent.handle_sidecar_terminated s).clusterId = none) := by
  constructor
  · intro s2 ops h
    unfold PlumiseAgent.stop_agent at h
    by_cases hc : s.status = PlumiseAgent.AgentStatus.stopped
    · rw [if_pos hc] at h
      exact absurd h (by simp)
    · rw [if_neg hc] at h
      simp only [Except.ok.injEq, Prod.mk.injEq] at h
      rw [← h.1]
      exact ⟨rfl, rfl, rfl⟩
  · intro h1 h2
    unfold PlumiseAgent.handle_sidecar_terminated
    rw [if_pos ⟨h1, h2⟩]
    exact ⟨rfl, rfl, rfl⟩

/-- C8 witness: stopping a running coordinator-mode record resets it to the
fresh stopped record, and a crash in rpc-server mode ends in `Error` with
standalone mode. -/
theorem C8_witness :
    PlumiseAgent.initialAgentState.status = PlumiseAgent.AgentStatus.stopped ∧
    PlumiseAgent.initialAgentState.nodeMode = PlumiseAgent.NodeMode.standalone ∧
    PlumiseAgent.initialAgentState.clusterId = none ∧
    (PlumiseAgent.handle_sidecar_terminated
        { PlumiseAgent.initialAgentState with
          status := PlumiseAgent.AgentStatus.running,
          nodeMode := PlumiseAgent.NodeMode.rpcServer,
          clusterId := some "c1" }).status = PlumiseAgent.AgentStatus.error :=
  ⟨((C8_stop_and_crash_reset
      { PlumiseAgent.initialAgentState with
        status := PlumiseAgent.AgentStatus.running,
        nodeMode := PlumiseAgent.NodeMode.coordinator,
        clusterId := some "c1" }).1 PlumiseAgent.initialAgentState [] rfl).1,
   ((C8_stop_and_crash_reset
      { PlumiseAgent.initialAgentState with
        status := PlumiseAgent.AgentStatus.running,
        nodeMode := PlumiseAgent.NodeMode.coordinator,
        clusterId := some "c1" }).1 PlumiseAgent.initialAgentState [] rfl).2.1,
   ((C8_stop_and_crash_reset
      { PlumiseAgent.initialAgentState with
        status := PlumiseAgent.AgentStatus.running,
        nodeMode := PlumiseAgent.NodeMode.coordinator,
        clusterId := some "c1" }).1 PlumiseAgent.initialAgentState [] rfl).2.2,
   ((C8_stop_and_crash_reset
      { PlumiseAgent.initialAgentState with
        status := PlumiseAgent.AgentStatus.running,
        nodeMode := PlumiseAgent.NodeMode.rpcServer,
        clusterId := some "c1" }).2 (by decide) (by decide)).1⟩
